import Mathlib

/-!
Verification of the Vue popover directive (`src/directives/Pop.ts`, exported
as `pop` and installed in `src/main.ts`).

The directive manages, per trigger element, a companion floating element
("popover"): expando fields `_popover`, `_autoUpdateCleanup`, `_timeout` and
`_removeEventListeners` on the trigger element hold its auxiliary state.  We
embed that state as `DirState` and each handler of the source
(`createPopover`, `destroyPopover`, `showPopover`, `hidePopover`,
`delayedHide`, `clearTimeoutHandler`, the `updated` hook and
`_removeEventListeners`) as a function `DirState → DirState`, parametrised by
the configuration captured by the `mounted` closure (`DirectiveCfg`).

The asynchronous `updatePosition` is embedded in two phases: the guard
`if (el._popover)` evaluated at invocation time (`updatePositionStart`) and
the code after `await computePosition` (`updatePositionResolve`), which runs
against whatever `el._popover` holds at resolution time; dereferencing a
cleared `el._popover` there is a `TypeError`, embedded as `Except.error`.

Timers are untimed: a scheduled timer is a pending token that may fire at any
later step, which over-approximates the real schedules, so invariants proved
over all `Op` sequences hold for the real interleavings as well.
-/

set_option autoImplicit false

namespace Pop

/-- A directive binding value: JS `binding.value` is absent (`undefined`), a
string, or a zero-argument function; `fn s` stands for a function whose
invocation `val()` returns `s`. -/
inductive BindingValue where
  | absent : BindingValue
  | str : String → BindingValue
  | fn : String → BindingValue
deriving DecidableEq, Repr

/-- `typeof val === "function"`. -/
def BindingValue.isFn : BindingValue → Bool
  | .fn _ => true
  | _ => false

/-- The parts of the Vue `DirectiveBinding` read by the directive:
`binding.value` and the `html` / `click` modifier flags. -/
structure Binding where
  value : BindingValue
  html : Bool
  click : Bool
deriving DecidableEq, Repr

/-- Popover content: `markup s` is an `innerHTML` assignment (rendered as
markup), `text s` a `textContent` assignment (escaped literal text). -/
inductive Content where
  | markup : String → Content
  | text : String → Content
deriving DecidableEq, Repr

/-- Whether the content was set through `innerHTML`. -/
def Content.isMarkup : Content → Bool
  | .markup _ => true
  | .text _ => false

/-- The string stored in the content, whichever channel set it. -/
def Content.contentStr : Content → String
  | .markup s => s
  | .text s => s

/-- JS `s || ""` on a string: the empty string is falsy. -/
def jsOrEmpty (s : String) : String :=
  if s = "" then "" else s

/-- JS `String.prototype.trim`: drop leading and trailing whitespace.
Executable model by structural recursion on the character list (Lean's
built-in `String.trim` is defined by well-founded recursion on byte
positions and does not evaluate inside the kernel). -/
def jsTrim (s : String) : String :=
  String.mk ((((s.data.dropWhile Char.isWhitespace).reverse).dropWhile Char.isWhitespace).reverse)

/-- `setContent` (source lines 43-51), split on `binding.value` first: a
function value makes the condition `binding.modifiers.html || typeof val ===
"function"` true and the ternary takes `val()`; for a string or absent value
the condition is just the `html` modifier and both branches compute
`val?.toString().trim() || ""` (absent short-circuits to `undefined`, hence
`""`). -/
def setContent (b : Binding) : Content :=
  match b.value with
  | .fn s => Content.markup s
  | .str s =>
      if b.html then Content.markup (jsOrEmpty (jsTrim s))
      else Content.text (jsOrEmpty (jsTrim s))
  | .absent =>
      if b.html then Content.markup "" else Content.text ""

/-- A placement side, the part before the optional `-start` / `-end`. -/
inductive Side where
  | top : Side
  | bottom : Side
  | left : Side
  | right : Side
deriving DecidableEq, Repr

def Side.toStr : Side → String
  | .top => "top"
  | .bottom => "bottom"
  | .left => "left"
  | .right => "right"

/-- Placement alignment suffix. -/
inductive Align where
  | start : Align
  | endAlign : Align
deriving DecidableEq, Repr

def Align.toStr : Align → String
  | .start => "start"
  | .endAlign => "end"

/-- One of the 12 placements of the positioning library: a side with an
optional alignment. -/
structure Placement where
  side : Side
  align : Option Align
deriving DecidableEq, Repr

/-- The placement string as the library spells it, e.g. `"top-start"`. -/
def Placement.toStr (p : Placement) : String :=
  match p.align with
  | none => p.side.toStr
  | some a => p.side.toStr ++ "-" ++ a.toStr

/-- JS `s.split("-")[0]`: the characters before the first `"-"` (the whole
string when no dash occurs). -/
def splitSide (s : String) : String :=
  String.mk (s.data.takeWhile (fun c => c ≠ '-'))

/-- The `origins` record (source lines 35-40): maps a side string to the CSS
transform-origin; lookup of any other key is `undefined` (`none`). -/
def origins : String → Option String
  | "top" => some "bottom"
  | "right" => some "left"
  | "bottom" => some "top"
  | "left" => some "right"
  | _ => none

/-- The side opposite to a given side, as the specification words it:
top maps to bottom, bottom to top, left to right, right to left. -/
def oppositeSide : Side → Side
  | .top => .bottom
  | .bottom => .top
  | .left => .right
  | .right => .left

/-- JS `arg || "top"` on `binding.arg : string | undefined`: both `undefined`
and the empty string are falsy. -/
def jsOrDefault (o : Option String) (d : String) : String :=
  match o with
  | none => d
  | some s => if s = "" then d else s

/-- The configuration the `mounted` hook captures in its closures: the binding
passed to `mounted` and `binding.arg` (the requested placement string, cast
unchecked to `Placement` in the source). -/
structure DirectiveCfg where
  binding : Binding
  arg : Option String
deriving DecidableEq, Repr

/-- `const isInteractive = click || html` (source line 57). -/
def isInteractive (cfg : DirectiveCfg) : Bool :=
  cfg.binding.click || cfg.binding.html

/-- `const origin = origins[placement.split("-")[0]] || "top"` (source line
58), with `placement = binding.arg || "top"`. -/
def mountOrigin (cfg : DirectiveCfg) : String :=
  match origins (splitSide (jsOrDefault cfg.arg "top")) with
  | some o => o
  | none => "top"

/-- The inline style fields of the popover element that the directive reads
or writes (the remaining `cssText` entries are constant cosmetics). -/
structure Style where
  opacity : String
  transform : String
  transformOrigin : String
  display : String
  top : String
  left : String
  pointerEvents : String
deriving DecidableEq, Repr

/-- The popover style assigned by `createPopover`'s `cssText` (source lines
66-84): `opacity: 0`, `transform: scale(0.7)` (`scale = 0.7`),
`transform-origin` from the mount-time origin, `display: none`, and
`pointer-events` auto for interactive popovers. -/
def initStyle (cfg : DirectiveCfg) : Style where
  opacity := "0"
  transform := "scale(0.7)"
  transformOrigin := mountOrigin cfg
  display := "none"
  top := ""
  left := ""
  pointerEvents := if isInteractive cfg then "auto" else "none"

/-- A popover `div` living in `document.body`: its identity, inline style,
content, and whether `createPopover` attached the interactive
`mouseenter`/`mouseleave` listeners to it (source lines 89-92). -/
structure Popover where
  id : Nat
  style : Style
  content : Content
  hoverListeners : Bool
deriving DecidableEq, Repr

/-- The auxiliary state of one mounted trigger element, together with the
parts of the document the directive touches.

* `body`            : popovers appended to `document.body` and not removed;
* `popoverRef`      : `el._popover` (the identity of the referenced element);
* `subHandle`       : `el._autoUpdateCleanup` — `some j` when the field holds
                      the cleanup of the `autoUpdate` subscription `j`;
* `liveSubs`        : `autoUpdate` subscriptions started and never cancelled;
* `nextSubId`       : source of fresh subscription identities;
* `closeTimerPending` : whether the `el._timeout` auto-close timer is pending;
* `destroyTimers`   : number of pending fire-and-forget destruction timers
                      (`setTimeout(() => destroyPopover(), time * 1000)`);
* `docClickListener`: whether `clickOutsideHandler` is on `document`;
* `triggerListeners`: whether the listeners added to `el` at mount remain;
* `nextPopId`       : source of fresh popover identities. -/
structure DirState where
  body : List Popover
  popoverRef : Option Nat
  subHandle : Option Nat
  liveSubs : List Nat
  nextSubId : Nat
  closeTimerPending : Bool
  destroyTimers : Nat
  docClickListener : Bool
  triggerListeners : Bool
  nextPopId : Nat
deriving DecidableEq, Repr

/-- The state right after `mounted` ran: listeners registered on the trigger,
everything else empty. -/
def initState : DirState where
  body := []
  popoverRef := none
  subHandle := none
  liveSubs := []
  nextSubId := 0
  closeTimerPending := false
  destroyTimers := 0
  docClickListener := false
  triggerListeners := true
  nextPopId := 0

/-- Update the style of the element `i` inside `document.body`. -/
def setStyle (i : Nat) (f : Style → Style) (s : DirState) : DirState :=
  { s with body := s.body.map fun p => if p.id = i then { p with style := f p.style } else p }

/-- Update the content of the element `i` inside `document.body`. -/
def setContentOf (i : Nat) (c : Content) (s : DirState) : DirState :=
  { s with body := s.body.map fun p => if p.id = i then { p with content := c } else p }

/-- `createPopover` (source lines 61-93): build the element, set its content
from the mount-time binding, style it, append it to `document.body`, store it
in `el._popover`, and for interactive popovers attach the hover listeners. -/
def createPopover (cfg : DirectiveCfg) (s : DirState) : DirState :=
  let p : Popover :=
    { id := s.nextPopId
      style := initStyle cfg
      content := setContent cfg.binding
      hoverListeners := isInteractive cfg }
  { s with
      body := s.body ++ [p]
      popoverRef := some s.nextPopId
      nextPopId := s.nextPopId + 1 }

/-- `destroyPopover` (source lines 96-99): `el._popover?.remove()` then
`el._popover = undefined`. -/
def destroyPopover (s : DirState) : DirState :=
  match s.popoverRef with
  | some i => { s with body := s.body.filter (fun p => p.id ≠ i), popoverRef := none }
  | none => { s with popoverRef := none }

/-- `showPopover` (source lines 120-130): create the popover if `el._popover`
is unset, re-run `setContent` with the mount-time binding, fire off
`updatePosition` (embedded separately, see `updatePositionResolve`), switch
`display`, set `opacity`/`transform` to their shown values, overwrite
`el._autoUpdateCleanup` with the cleanup of a fresh `autoUpdate` subscription,
and in click mode add the document click listener. -/
def showPopover (cfg : DirectiveCfg) (s : DirState) : DirState :=
  let s1 := if s.popoverRef.isNone then createPopover cfg s else s
  match s1.popoverRef with
  | some i =>
      let s2 := setContentOf i (setContent cfg.binding) s1
      let s3 := setStyle i (fun st => { st with display := "inline-block" }) s2
      let s4 := setStyle i (fun st => { st with opacity := "1", transform := "scale(1)" }) s3
      let s5 := { s4 with
                    subHandle := some s4.nextSubId
                    liveSubs := s4.nextSubId :: s4.liveSubs
                    nextSubId := s4.nextSubId + 1 }
      if cfg.binding.click then { s5 with docClickListener := true } else s5
  | none => s1

/-- `hidePopover` (source lines 133-144): when `el._popover` is set, start the
fade-out, schedule a destruction timer (its handle is not stored), invoke and
clear `el._autoUpdateCleanup` when present, and in click mode remove the
document click listener.  When `el._popover` is unset the whole body is
skipped. -/
def hidePopover (cfg : DirectiveCfg) (s : DirState) : DirState :=
  match s.popoverRef with
  | some i =>
      let s1 := setStyle i (fun st => { st with opacity := "0", transform := "scale(0.7)" }) s
      let s2 := { s1 with destroyTimers := s1.destroyTimers + 1 }
      let s3 :=
        match s2.subHandle with
        | some j => { s2 with liveSubs := s2.liveSubs.erase j, subHandle := none }
        | none => s2
      if cfg.binding.click then { s3 with docClickListener := false } else s3
  | none => s

/-- `delayedHide` (source lines 147-150): cancel the pending auto-close timer
and schedule a new one. -/
def delayedHide (s : DirState) : DirState :=
  { s with closeTimerPending := true }

/-- `clearTimeoutHandler` (source line 152): cancel the pending auto-close
timer. -/
def clearTimeoutHandler (s : DirState) : DirState :=
  { s with closeTimerPending := false }

/-- A pending auto-close timer fires: it runs `hidePopover`. -/
def fireCloseTimer (cfg : DirectiveCfg) (s : DirState) : DirState :=
  if s.closeTimerPending then hidePopover cfg { s with closeTimerPending := false } else s

/-- A pending destruction timer fires: it runs `destroyPopover` against
whatever `el._popover` holds at that moment (source line 137 stores no handle
and checks no identity). -/
def fireDestroyTimer (s : DirState) : DirState :=
  if s.destroyTimers > 0 then destroyPopover { s with destroyTimers := s.destroyTimers - 1 } else s

/-- The `updated` hook (source lines 189-191): it receives the new binding
descriptor from the host and refreshes the content in place when a popover
exists; it stores nothing, so the closures of `mounted` keep using the
mount-time binding. -/
def updatedHook (b : Binding) (s : DirState) : DirState :=
  match s.popoverRef with
  | some i => setContentOf i (setContent b) s
  | none => s

/-- `el._removeEventListeners` (source lines 177-186), invoked by
`beforeUnmount`: remove every listener added to the trigger, remove the
document click listener, and destroy the popover.  It does not invoke
`el._autoUpdateCleanup` and clears no timer. -/
def removeEventListeners (s : DirState) : DirState :=
  destroyPopover { s with triggerListeners := false, docClickListener := false }

/-- The directive operations and timer firings a trigger element can
experience after `mounted`. -/
inductive Op where
  | Show : Op
  | Hide : Op
  | Update : Binding → Op
  | Detach : Op
  | FireDestroy : Op
  | FireClose : Op
  | MouseleaveDelayed : Op
  | MouseenterClear : Op
deriving DecidableEq, Repr

/-- One step of the directive: dispatch an operation to its handler. -/
def step (cfg : DirectiveCfg) (s : DirState) : Op → DirState
  | .Show => showPopover cfg s
  | .Hide => hidePopover cfg s
  | .Update b => updatedHook b s
  | .Detach => removeEventListeners s
  | .FireDestroy => fireDestroyTimer s
  | .FireClose => fireCloseTimer cfg s
  | .MouseleaveDelayed => delayedHide s
  | .MouseenterClear => clearTimeoutHandler s

/-- Run a sequence of operations from a state. -/
def runFrom (cfg : DirectiveCfg) (s : DirState) (ops : List Op) : DirState :=
  ops.foldl (step cfg) s

/-- Run a sequence of operations from the freshly mounted state. -/
def run (cfg : DirectiveCfg) (ops : List Op) : DirState :=
  runFrom cfg initState ops

/-- The result of the external solver `computePosition`: coordinates and the
resolved placement. -/
structure SolveResult where
  x : Int
  y : Int
  placement : Placement
deriving DecidableEq, Repr

/-- The guard `if (el._popover)` at the start of `updatePosition` (source line
103): when false, no positioning call is made and nothing is modified. -/
def updatePositionStart (s : DirState) : Bool :=
  s.popoverRef.isSome

/-- The transform-origin the source assigns after positioning:
`origins[finalPlacement.split("-")[0]]` (source lines 113-114).  The `none`
branch is the JS `undefined` lookup, unreachable for the 12 library
placements. -/
def resolveOrigin (p : Placement) : String :=
  match origins (splitSide p.toStr) with
  | some o => o
  | none => "undefined"

/-- The continuation of `updatePosition` after `await computePosition`
(source lines 104-116): it re-reads `el._popover`; when the reference was
cleared while the call was in flight, `el._popover.style` dereferences
`undefined` and throws a `TypeError`, embedded as `Except.error ()`;
otherwise it assigns `transformOrigin`, `top` and `left` on the currently
referenced element. -/
def updatePositionResolve (r : SolveResult) (s : DirState) : Except Unit DirState :=
  match s.popoverRef with
  | some i =>
      Except.ok (setStyle i
        (fun st => { st with
                      transformOrigin := resolveOrigin r.placement
                      top := toString r.y ++ "px"
                      left := toString r.x ++ "px" }) s)
  | none => Except.error ()

/-- The opacity of the element `el._popover` refers to, the test
`el._popover?.style.opacity === "1"` of `clickHandler` builds on. -/
def popoverOpacity (s : DirState) : Option String :=
  s.popoverRef.bind fun i => (s.body.find? (fun p => p.id == i)).map (fun p => p.style.opacity)

/-- The popover is currently shown: the referenced element has opacity `"1"`. -/
def isShown (s : DirState) : Bool :=
  popoverOpacity s == some "1"

/-- The content of the element `el._popover` refers to. -/
def popoverContent (s : DirState) : Option Content :=
  s.popoverRef.bind fun i => (s.body.find? (fun p => p.id == i)).map (fun p => p.content)

/-- `document.body` holds exactly the element `el._popover` refers to: the
popovers of this trigger present in the document are the one the stored
reference names, and none when the reference is empty. -/
def popInv (s : DirState) : Prop :=
  s.body.map Popover.id = s.popoverRef.toList

lemma popInv_initState : popInv initState := rfl

lemma setStyle_ids (i : Nat) (f : Style → Style) (s : DirState) :
    (setStyle i f s).body.map Popover.id = s.body.map Popover.id := by
  simp only [setStyle, List.map_map]
  refine List.map_congr_left fun p _ => ?_
  by_cases h : p.id = i <;> simp [Function.comp, h]

lemma setContentOf_ids (i : Nat) (c : Content) (s : DirState) :
    (setContentOf i c s).body.map Popover.id = s.body.map Popover.id := by
  simp only [setContentOf, List.map_map]
  refine List.map_congr_left fun p _ => ?_
  by_cases h : p.id = i <;> simp [Function.comp, h]

lemma destroyPopover_body (s : DirState) (h : popInv s) :
    (destroyPopover s).body = [] ∧ (destroyPopover s).popoverRef = none := by
  rcases hr : s.popoverRef with _ | i
  · rw [popInv, hr] at h
    have hb : s.body = [] := by simpa using h
    simp [destroyPopover, hr, hb]
  · rw [popInv, hr] at h
    rcases hb : s.body with _ | ⟨p, t⟩
    · simp [hb] at h
    · rw [hb] at h
      simp only [List.map_cons, Option.toList] at h
      have h1 : p.id = i := (List.cons_eq_cons.mp h).1
      have h2 : t = [] := by
        have := (List.cons_eq_cons.mp h).2
        simpa using this
      simp [destroyPopover, hr, hb, h1, h2]

lemma popInv_destroyPopover (s : DirState) (h : popInv s) : popInv (destroyPopover s) := by
  obtain ⟨h1, h2⟩ := destroyPopover_body s h
  rw [popInv, h1, h2]
  rfl

lemma hidePopover_frame (cfg : DirectiveCfg) (s : DirState) :
    (hidePopover cfg s).body.map Popover.id = s.body.map Popover.id ∧
    (hidePopover cfg s).popoverRef = s.popoverRef := by
  rcases hr : s.popoverRef with _ | i
  · simp [hidePopover, hr]
  · rcases hs : s.subHandle with _ | j <;> cases hc : cfg.binding.click <;>
      simp [hidePopover, hr, hs, hc, setStyle] <;>
      · intro a _
        by_cases h : a.id = i <;> simp [h]

lemma popInv_hidePopover (cfg : DirectiveCfg) (s : DirState) (h : popInv s) :
    popInv (hidePopover cfg s) := by
  obtain ⟨h1, h2⟩ := hidePopover_frame cfg s
  rw [popInv, h1, h2]
  exact h

lemma showPopover_frame (cfg : DirectiveCfg) (s : DirState) (h : s.popoverRef.isSome = true) :
    (showPopover cfg s).body.map Popover.id = s.body.map Popover.id ∧
    (showPopover cfg s).popoverRef = s.popoverRef ∧
    (showPopover cfg s).nextPopId = s.nextPopId := by
  rcases hr : s.popoverRef with _ | i
  · rw [hr] at h
    simp at h
  · cases hc : cfg.binding.click <;>
      simp [showPopover, hr, hc, setStyle, setContentOf] <;>
      · intro a _
        by_cases h : a.id = i <;> simp [h]

lemma popInv_showPopover (cfg : DirectiveCfg) (s : DirState) (h : popInv s) :
    popInv (showPopover cfg s) := by
  rcases hr : s.popoverRef with _ | i
  · rw [popInv, hr] at h
    have hb : s.body = [] := by simpa using h
    cases hc : cfg.binding.click <;>
      simp [popInv, showPopover, createPopover, hr, hb, hc, setStyle, setContentOf]
  · have hs : s.popoverRef.isSome = true := by rw [hr]; rfl
    obtain ⟨h1, h2, _⟩ := showPopover_frame cfg s hs
    rw [popInv, h1, h2]
    exact h

lemma setContentOf_popoverRef (i : Nat) (c : Content) (s : DirState) :
    (setContentOf i c s).popoverRef = s.popoverRef := rfl

lemma popInv_updatedHook (b : Binding) (s : DirState) (h : popInv s) :
    popInv (updatedHook b s) := by
  rcases hr : s.popoverRef with _ | i
  · simpa [updatedHook, hr] using h
  · have he : updatedHook b s = setContentOf i (setContent b) s := by
      simp [updatedHook, hr]
    rw [popInv, he, setContentOf_ids, setContentOf_popoverRef]
    exact h

lemma popInv_removeEventListeners (s : DirState) (h : popInv s) :
    popInv (removeEventListeners s) := by
  unfold removeEventListeners
  exact popInv_destroyPopover _ (by simpa [popInv] using h)

lemma step_popInv (cfg : DirectiveCfg) (op : Op) (s : DirState) (h : popInv s) :
    popInv (step cfg s op) := by
  cases op with
  | Show => exact popInv_showPopover cfg s h
  | Hide => exact popInv_hidePopover cfg s h
  | Update b => exact popInv_updatedHook b s h
  | Detach => exact popInv_removeEventListeners s h
  | FireDestroy =>
      simp only [step, fireDestroyTimer]
      split
      · exact popInv_destroyPopover _ (by simpa [popInv] using h)
      · exact h
  | FireClose =>
      simp only [step, fireCloseTimer]
      split
      · exact popInv_hidePopover cfg _ (by simpa [popInv] using h)
      · exact h
  | MouseleaveDelayed => simpa [step, delayedHide, popInv] using h
  | MouseenterClear => simpa [step, clearTimeoutHandler, popInv] using h

lemma runFrom_popInv (cfg : DirectiveCfg) (ops : List Op) :
    ∀ s : DirState, popInv s → popInv (runFrom cfg s ops) := by
  induction ops with
  | nil => exact fun s h => h
  | cons op t ih => exact fun s h => ih (step cfg s op) (step_popInv cfg op s h)

lemma run_popInv (cfg : DirectiveCfg) (ops : List Op) : popInv (run cfg ops) :=
  runFrom_popInv cfg ops initState popInv_initState

lemma popInv_length (s : DirState) (h : popInv s) : s.body.length ≤ 1 := by
  have : s.body.length = (s.popoverRef.toList).length := by
    rw [← h, List.length_map]
  rw [this]
  rcases s.popoverRef with _ | i <;> simp

lemma popInv_some (s : DirState) (h : popInv s) (i : Nat) (hr : s.popoverRef = some i) :
    ∃ p, s.body = [p] ∧ p.id = i := by
  rw [popInv, hr] at h
  rcases hb : s.body with _ | ⟨p, t⟩
  · rw [hb] at h
    simp at h
  · rw [hb] at h
    simp only [List.map_cons, Option.toList] at h
    obtain ⟨h1, h2⟩ := List.cons_eq_cons.mp h
    have ht : t = [] := by simpa using h2
    refine ⟨p, ?_, h1⟩
    rw [ht]

lemma destroyPopover_misc (s : DirState) :
    (destroyPopover s).triggerListeners = s.triggerListeners ∧
    (destroyPopover s).docClickListener = s.docClickListener := by
  rcases hr : s.popoverRef with _ | i <;> simp [destroyPopover, hr]

lemma run_append_one (cfg : DirectiveCfg) (ops : List Op) (op : Op) :
    run cfg (ops ++ [op]) = step cfg (run cfg ops) op := by
  simp [run, runFrom, List.foldl_append]

lemma popoverContent_showPopover (cfg : DirectiveCfg) (s : DirState) (h : popInv s) :
    popoverContent (showPopover cfg s) = some (setContent cfg.binding) := by
  rcases hr : s.popoverRef with _ | i
  · have hb : s.body = [] := by
      rw [popInv, hr] at h
      simpa using h
    cases hc : cfg.binding.click <;>
      simp [popoverContent, showPopover, createPopover, setContentOf, setStyle, hr, hb, hc]
  · obtain ⟨p, hb, hpi⟩ := popInv_some s h i hr
    cases hc : cfg.binding.click <;>
      simp [popoverContent, showPopover, createPopover, setContentOf, setStyle, hr, hb, hpi, hc]

lemma popoverContent_updatedHook (b : Binding) (s : DirState) (h : popInv s) (i : Nat)
    (hr : s.popoverRef = some i) :
    popoverContent (updatedHook b s) = some (setContent b) := by
  obtain ⟨p, hb, hpi⟩ := popInv_some s h i hr
  simp [popoverContent, updatedHook, setContentOf, hr, hb, hpi]

lemma resolveOrigin_eq (p : Placement) :
    resolveOrigin p = Side.toStr (oppositeSide p.side) := by
  rcases p with ⟨si, al⟩
  cases si <;> cases al <;>
    simp [resolveOrigin, splitSide, Placement.toStr, Side.toStr, Align.toStr, origins,
      oppositeSide]

/-! ## Fixtures used by concrete theorems -/

/-- A plain-text binding with value `"a"` and no modifiers. -/
def bindA : Binding := { value := BindingValue.str "a", html := false, click := false }

/-- A plain-text binding with value `"b"` and no modifiers. -/
def bindB : Binding := { value := BindingValue.str "b", html := false, click := false }

/-- A hover-mode attachment (no modifiers, default placement). -/
def hoverCfg : DirectiveCfg := { binding := bindA, arg := none }

/-- A click-mode attachment (the `click` modifier set). -/
def clickCfg : DirectiveCfg :=
  { binding := { value := BindingValue.str "a", html := false, click := true }, arg := none }

/-- A sample solver result with resolved placement `"bottom"`. -/
def sampleResult : SolveResult :=
  { x := 3, y := 4, placement := { side := Side.bottom, align := none } }

/-! ## The claims -/

/-- C1: after a position update completes while the floating element still
exists, its transform-origin equals the opposite side of the resolved
placement's side component (top to bottom, bottom to top, left to right,
right to left); the requested placement does not occur in the computation at
all, so the result is independent of it. -/
theorem transformOrigin_matches_resolved_placement (s : DirState) (r : SolveResult) (i : Nat)
    (h : s.popoverRef = some i) :
    ∃ s2, updatePositionResolve r s = Except.ok s2 ∧
      ∀ p ∈ s2.body, p.id = i →
        p.style.transformOrigin = Side.toStr (oppositeSide r.placement.side) := by
  refine ⟨setStyle i
      (fun st => { st with
                    transformOrigin := resolveOrigin r.placement
                    top := toString r.y ++ "px"
                    left := toString r.x ++ "px" }) s, ?_, ?_⟩
  · simp [updatePositionResolve, h]
  intro p hp hpi
  simp only [setStyle, List.mem_map] at hp
  obtain ⟨q, hq, hpq⟩ := hp
  by_cases hqi : q.id = i
  · rw [← hpq]
    simp [hqi, resolveOrigin_eq]
  · rw [← hpq] at hpi
    simp [hqi] at hpi

theorem transformOrigin_matches_resolved_placement_witness :
    (run hoverCfg [Op.Show]).popoverRef = some 0 ∧
    ∃ s2, updatePositionResolve sampleResult (run hoverCfg [Op.Show]) = Except.ok s2 ∧
      ∀ p ∈ s2.body, p.id = 0 →
        p.style.transformOrigin = Side.toStr (oppositeSide sampleResult.placement.side) :=
  ⟨by decide, transformOrigin_matches_resolved_placement (run hoverCfg [Op.Show]) sampleResult 0
    (by decide)⟩

/-- C2: in every reachable state at most one floating element of this trigger
is in the document, and `showPopover` creates no element (allocates no fresh
identity, changes no document element) when the stored reference
`el._popover` is non-empty. -/
theorem single_popover_per_trigger (cfg : DirectiveCfg) (ops : List Op) :
    (run cfg ops).body.length ≤ 1 ∧
    (∀ s : DirState, s.popoverRef.isSome = true →
      (showPopover cfg s).body.map Popover.id = s.body.map Popover.id ∧
      (showPopover cfg s).nextPopId = s.nextPopId) := by
  refine ⟨popInv_length _ (run_popInv cfg ops), fun s hs => ?_⟩
  obtain ⟨h1, _, h3⟩ := showPopover_frame cfg s hs
  exact ⟨h1, h3⟩

theorem single_popover_per_trigger_witness :
    (run hoverCfg [Op.Show, Op.Hide, Op.Show]).body.length ≤ 1 ∧
    ((run hoverCfg [Op.Show]).popoverRef.isSome = true ∧
      (showPopover hoverCfg (run hoverCfg [Op.Show])).nextPopId =
        (run hoverCfg [Op.Show]).nextPopId) :=
  ⟨(single_popover_per_trigger hoverCfg [Op.Show, Op.Hide, Op.Show]).1,
    by decide,
    ((single_popover_per_trigger hoverCfg []).2 (run hoverCfg [Op.Show]) (by decide)).2⟩

/-- C3 (code bug): after `Show` then `Detach`, the popover is destroyed and
nothing is shown, yet `el._autoUpdateCleanup` still holds the cleanup of
subscription `0` and that subscription is still live:
`_removeEventListeners` never invokes the stored cleanup, so the
"subscription active iff shown" invariant fails in this reachable state. -/
theorem detach_leaves_subscription_active :
    (run hoverCfg [Op.Show, Op.Detach]).popoverRef = none ∧
    (run hoverCfg [Op.Show, Op.Detach]).body = [] ∧
    (run hoverCfg [Op.Show, Op.Detach]).subHandle = some 0 ∧
    (run hoverCfg [Op.Show, Op.Detach]).liveSubs = [0] := by
  decide

/-- C4 (code bug): after `Show; Hide; Show; mouseleave; Detach` in click
mode, `Detach` has removed the listeners and destroyed the popover, but the
auto-close timer is still pending, the destruction timer scheduled by the
`Hide` is still pending, and the `autoUpdate` subscription of the second
`Show` is still held and live: `_removeEventListeners` cancels no timer and
no subscription. -/
theorem detach_cancels_no_timers_or_subscription :
    (run clickCfg [Op.Show, Op.Hide, Op.Show, Op.MouseleaveDelayed, Op.Detach]).popoverRef
        = none ∧
    (run clickCfg [Op.Show, Op.Hide, Op.Show, Op.MouseleaveDelayed, Op.Detach]).triggerListeners
        = false ∧
    (run clickCfg [Op.Show, Op.Hide, Op.Show, Op.MouseleaveDelayed, Op.Detach]).closeTimerPending
        = true ∧
    (run clickCfg [Op.Show, Op.Hide, Op.Show, Op.MouseleaveDelayed, Op.Detach]).destroyTimers
        = 1 ∧
    (run clickCfg [Op.Show, Op.Hide, Op.Show, Op.MouseleaveDelayed, Op.Detach]).subHandle
        = some 1 ∧
    (run clickCfg [Op.Show, Op.Hide, Op.Show, Op.MouseleaveDelayed, Op.Detach]).liveSubs
        = [1] := by
  decide

/-- C5: after `Detach`, whatever happened before, the trigger listeners and
the document click listener are gone and no floating element of this trigger
remains in the document (so in particular no element carrying the directive's
hover listeners remains). -/
theorem detach_removes_listeners_and_popover (cfg : DirectiveCfg) (ops : List Op) :
    (run cfg (ops ++ [Op.Detach])).triggerListeners = false ∧
    (run cfg (ops ++ [Op.Detach])).docClickListener = false ∧
    (run cfg (ops ++ [Op.Detach])).body = [] := by
  rw [run_append_one]
  have hinv : popInv { run cfg ops with triggerListeners := false, docClickListener := false } := by
    simpa [popInv] using run_popInv cfg ops
  obtain ⟨hb, _⟩ :=
    destroyPopover_body { run cfg ops with triggerListeners := false, docClickListener := false }
      hinv
  obtain ⟨ht, hd⟩ :=
    destroyPopover_misc { run cfg ops with triggerListeners := false, docClickListener := false }
  exact ⟨by rw [step, removeEventListeners, ht], by rw [step, removeEventListeners, hd],
    by rw [step, removeEventListeners]; exact hb⟩

/-- C6: `setContent` renders as markup exactly when the `html` modifier is
set or the value is a function; a function value is invoked and its output is
the markup; a string value without the `html` modifier becomes plain escaped
text, trimmed; an absent value yields empty content. -/
theorem setContent_rendering_rules (b : Binding) :
    ((setContent b).isMarkup = (b.html || b.value.isFn)) ∧
    (∀ s, b.value = BindingValue.fn s → setContent b = Content.markup s) ∧
    (∀ s, b.value = BindingValue.str s → b.html = false →
      setContent b = Content.text (jsOrEmpty (jsTrim s))) ∧
    (b.value = BindingValue.absent → (setContent b).contentStr = "") := by
  rcases b with ⟨v, hb, cb⟩
  cases v <;> cases hb <;>
    simp [setContent, Content.isMarkup, BindingValue.isFn, Content.contentStr]

theorem setContent_rendering_rules_witness :
    bindB.value = BindingValue.str "b" ∧ bindB.html = false ∧
    setContent bindB = Content.text (jsOrEmpty (jsTrim "b")) :=
  ⟨rfl, rfl, (setContent_rendering_rules bindB).2.2.1 "b" rfl rfl⟩

/-- C7 (counterexample): mounted with value `"a"`, then `Update` to value
`"b"` while no floating element exists, then `Show`: the floating element
shows `"a"` (the mount-time binding captured by the `mounted` closures), not
the most recently supplied value `"b"` — refuting the claim that the next
`Show` reflects a value changed by an `Update` at a time no element existed. -/
theorem show_reverts_updated_content :
    popoverContent (run hoverCfg [Op.Update bindB, Op.Show]) = some (Content.text "a") ∧
    setContent bindB = Content.text "b" := by
  decide

/-- C7 (amended): on every `Show` the floating element's content is
re-applied from the binding captured at mount time (for function values this
re-invocation is what refreshes their output); a value supplied by `Update`
is applied in place only when a floating element exists at `Update` time. -/
theorem show_uses_mount_binding (cfg : DirectiveCfg) (b2 : Binding) (ops : List Op) :
    popoverContent (run cfg (ops ++ [Op.Show])) = some (setContent cfg.binding) ∧
    (∀ i, (run cfg ops).popoverRef = some i →
      popoverContent (run cfg (ops ++ [Op.Update b2])) = some (setContent b2)) := by
  refine ⟨?_, fun i hi => ?_⟩
  · rw [run_append_one, step]
    exact popoverContent_showPopover cfg _ (run_popInv cfg ops)
  · rw [run_append_one, step]
    exact popoverContent_updatedHook b2 _ (run_popInv cfg ops) i hi

theorem show_uses_mount_binding_witness :
    (run hoverCfg [Op.Show]).popoverRef = some 0 ∧
    popoverContent (run hoverCfg ([Op.Show] ++ [Op.Update bindB])) = some (setContent bindB) :=
  ⟨by decide, (show_uses_mount_binding hoverCfg bindB [Op.Show]).2 0 (by decide)⟩

/-- C8 (counterexample): the positioning call starts while the popover exists
(the guard passes), the popover is destroyed before the result arrives, and
the resolution then dereferences the cleared `el._popover` and raises a
`TypeError` — refuting the claim that applying the result raises no error. -/
theorem stale_resolve_throws :
    updatePositionStart (run hoverCfg [Op.Show]) = true ∧
    updatePositionResolve sampleResult (destroyPopover (run hoverCfg [Op.Show]))
      = Except.error () :=
  ⟨by decide, rfl⟩

/-- C8 (amended): when no floating element exists at the time
`updatePosition` is invoked, the guard fails and the update is a no-op; but
when the element is removed between invocation and resolution, the resolution
raises an error instead of silently discarding the stale result; resolution
succeeds exactly when a floating element is currently referenced. -/
theorem updatePosition_guard_semantics (s : DirState) (r : SolveResult) :
    (s.popoverRef = none →
      updatePositionStart s = false ∧ updatePositionResolve r s = Except.error ()) ∧
    (∀ i, s.popoverRef = some i → ∃ s2, updatePositionResolve r s = Except.ok s2) := by
  constructor
  · intro h
    exact ⟨by simp [updatePositionStart, h], by simp [updatePositionResolve, h]⟩
  · intro i h
    exact ⟨setStyle i
      (fun st => { st with
                    transformOrigin := resolveOrigin r.placement
                    top := toString r.y ++ "px"
                    left := toString r.x ++ "px" }) s, by simp [updatePositionResolve, h]⟩

theorem updatePosition_guard_semantics_witness :
    initState.popoverRef = none ∧
    (updatePositionStart initState = false ∧
      updatePositionResolve sampleResult initState = Except.error ()) :=
  ⟨rfl, (updatePosition_guard_semantics initState sampleResult).1 rfl⟩

/-- C9 (counterexample): in a `Show; Hide; Show` sequence inside the fade
window, the second `Show` creates no fresh element: only one identity was
ever allocated (`nextPopId = 1`) and the stored reference still names element
`0` from the first `Show`, while the stale destruction timer of the `Hide` is
pending and the element is fully shown — refuting the wording that a freshly
created element from the second `Show` exists to be destroyed. -/
theorem second_show_reuses_element :
    (run hoverCfg [Op.Show, Op.Hide, Op.Show]).nextPopId = 1 ∧
    (run hoverCfg [Op.Show, Op.Hide, Op.Show]).popoverRef = some 0 ∧
    (run hoverCfg [Op.Show, Op.Hide, Op.Show]).destroyTimers = 1 ∧
    isShown (run hoverCfg [Op.Show, Op.Hide, Op.Show]) = true := by
  decide

/-- C9 (amended): whenever a destruction timer is pending, its firing
destroys the floating element that is current at firing time — in particular
the element re-shown by a second `Show` inside the fade window (the same
reused element, not a freshly created one) is removed by the stale timer. -/
theorem stale_destroy_timer_removes_current_popover (cfg : DirectiveCfg) (ops : List Op)
    (h : 0 < (run cfg ops).destroyTimers) :
    (run cfg (ops ++ [Op.FireDestroy])).popoverRef = none ∧
    (run cfg (ops ++ [Op.FireDestroy])).body = [] := by
  rw [run_append_one, step]
  have hinv : popInv { run cfg ops with destroyTimers := (run cfg ops).destroyTimers - 1 } := by
    simpa [popInv] using run_popInv cfg ops
  obtain ⟨hb, hrf⟩ :=
    destroyPopover_body { run cfg ops with destroyTimers := (run cfg ops).destroyTimers - 1 } hinv
  rw [fireDestroyTimer, if_pos h]
  exact ⟨hrf, hb⟩

theorem stale_destroy_timer_removes_current_popover_witness :
    0 < (run hoverCfg [Op.Show, Op.Hide, Op.Show]).destroyTimers ∧
    ((run hoverCfg ([Op.Show, Op.Hide, Op.Show] ++ [Op.FireDestroy])).popoverRef = none ∧
      (run hoverCfg ([Op.Show, Op.Hide, Op.Show] ++ [Op.FireDestroy])).body = []) :=
  ⟨by decide,
    stale_destroy_timer_removes_current_popover hoverCfg [Op.Show, Op.Hide, Op.Show] (by decide)⟩

/-- C10: invoking `hidePopover` when `el._popover` is unset leaves the whole
state unchanged: no destruction timer is scheduled, the cleanup handle, the
auto-close timer, the document listener and every element style are exactly
as before. -/
theorem hide_without_popover_noop (cfg : DirectiveCfg) (s : DirState)
    (h : s.popoverRef = none) :
    hidePopover cfg s = s := by
  simp [hidePopover, h]

theorem hide_without_popover_noop_witness :
    initState.popoverRef = none ∧ hidePopover hoverCfg initState = initState :=
  ⟨rfl, hide_without_popover_noop hoverCfg initState rfl⟩

end Pop
